import Mathlib

/-!
# Verification of the Patient Management System backend

Shallow embedding of `Backend/main.py` (FastAPI + pydantic v2) and proofs
about its behaviour.

Modelling conventions:
* Python floats are modelled as exact rationals (`ℚ`); `round(x, 2)` is
  round-half-to-even on `x * 100` (CPython's rounding mode), applied to the
  exact rational value.
* The persisted JSON object (`patients.json`) is a mapping from patient id to
  a record; Python dicts preserve insertion order, so the collection is an
  association list `List (String × StoredRecord)` whose key list is `Nodup`
  in every state a dict can represent.
* A stored record is a JSON object that may or may not carry each key the
  program reads, so every field of `StoredRecord` is an `Option`.
  (`Patient.model_dump()` produces a record with all keys present, the two
  computed fields included.)
* `Patient_update.model_dump(exclude_unset=True)` keeps exactly the fields
  the client supplied; a field that was not supplied is `none` here.
  Explicit JSON `null` values are conflated with absent fields.
* pydantic validation errors raised while constructing a model inside a
  handler, and plain Python `TypeError`s, escape the handler (FastAPI turns
  them into a 500 response); both are distinct error constructors, separate
  from deliberate `HTTPException`s.
-/


/-- Gender enum: `Literal['male','female','other']`. -/
inductive Gender
  | male
  | female
  | other
deriving DecidableEq, Repr

/-- Floor of a rational, kernel-computable (`den` is positive, so floor
division of `num` by `den` is the floor). -/
def ratFloor (q : ℚ) : ℤ := Int.fdiv q.num q.den

/-- Round-half-to-even to the nearest integer, as Python's builtin `round`
does on the exact value. -/
def roundHalfEven (q : ℚ) : ℤ :=
  let n := ratFloor q
  let f := q - n
  if f < 1/2 then n
  else if 1/2 < f then n + 1
  else if n % 2 = 0 then n else n + 1

/-- Python `round(x, 2)`: round-half-to-even at two decimal places. -/
def round2 (q : ℚ) : ℚ := (roundHalfEven (q * 100) : ℚ) / 100

/-- The pydantic `Patient` model's declared fields (the values held by a
validated instance; the `Field` range constraints are `Patient.Valid`). -/
structure Patient where
  id : String
  name : String
  city : String
  age : ℤ
  gender : Gender
  height : ℚ
  weight : ℚ
deriving DecidableEq, Repr

/-- The `Field` constraints of the `Patient` model: `age` has `gt=0, lt=120`,
`height` and `weight` have `gt=0`.  A `Patient` value that FastAPI hands to a
handler always satisfies these. -/
def Patient.Valid (p : Patient) : Prop :=
  0 < p.age ∧ p.age < 120 ∧ 0 < p.height ∧ 0 < p.weight

instance (p : Patient) : Decidable p.Valid := by
  unfold Patient.Valid; infer_instance

/-- Computed field `bmi`: `round(self.weight / (self.height ** 2), 2)`. -/
def Patient.bmi (p : Patient) : ℚ := round2 (p.weight / p.height ^ 2)

/-- Computed field `verdict`, translated clause by clause from the source
(`18.5 <= self.bmi < 25` is the chained comparison, a conjunction). -/
def Patient.verdict (p : Patient) : String :=
  if p.bmi < 18.5 then "Underweight"
  else if 18.5 ≤ p.bmi ∧ p.bmi < 25 then "Normal weight"
  else if 25 ≤ p.bmi ∧ p.bmi < 30 then "Overweight"
  else "Obese"

/-- A JSON object stored under some id in `patients.json`: each key the
program ever reads, present or absent. -/
structure StoredRecord where
  id? : Option String
  name? : Option String
  city? : Option String
  age? : Option ℤ
  gender? : Option Gender
  height? : Option ℚ
  weight? : Option ℚ
  bmi? : Option ℚ
  verdict? : Option String
deriving DecidableEq, Repr

/-- `patient.model_dump()`: every declared field plus the two computed
fields, all present. -/
def Patient.model_dump (p : Patient) : StoredRecord :=
  { id? := some p.id
    name? := some p.name
    city? := some p.city
    age? := some p.age
    gender? := some p.gender
    height? := some p.height
    weight? := some p.weight
    bmi? := some p.bmi
    verdict? := some p.verdict }

/-- The partial-update pydantic model `Patient_update`: every field optional,
`none` meaning the client did not supply the field. -/
structure Patient_update where
  name? : Option String
  city? : Option String
  age? : Option ℤ
  gender? : Option Gender
  height? : Option ℚ
  weight? : Option ℚ
deriving DecidableEq, Repr

/-- The `Field` constraints of `Patient_update`: provided `age`, `height`,
`weight` must be positive (note: no upper bound on `age` here, unlike
`Patient`).  FastAPI enforces this before the handler runs. -/
def Patient_update.Valid (u : Patient_update) : Prop :=
  (∀ a ∈ u.age?, 0 < a) ∧ (∀ h ∈ u.height?, 0 < h) ∧ (∀ w ∈ u.weight?, 0 < w)

instance (u : Patient_update) : Decidable u.Valid := by
  unfold Patient_update.Valid; infer_instance

/-- The update payload with no field set (`{}`). -/
def Patient_update.empty : Patient_update :=
  { name? := none, city? := none, age? := none, gender? := none,
    height? := none, weight? := none }

/-- An error response of the API: a deliberate `HTTPException`, a pydantic
`ValidationError` raised while constructing a model inside the handler, or a
plain Python `TypeError` — the latter two escape the handler uncaught. -/
inductive ApiError
  | http (status : ℕ) (detail : String)
  | validationError (detail : String)
  | typeError (detail : String)
deriving DecidableEq, Repr

/-- The persisted collection: the JSON object in `patients.json`, id keys in
dict insertion order. -/
abbrev Collection := List (String × StoredRecord)

/-- Python `data[pid]` / `pid in data` on the dict (first match; a dict never
has a duplicate key). -/
def lookupId (pid : String) : Collection → Option StoredRecord
  | [] => none
  | kv :: rest => if kv.1 = pid then some kv.2 else lookupId pid rest

/-- `for key, value in updated_data.items(): existing_patient[key]=value` for
one field: a field the client supplied overwrites, an absent one keeps the
stored value. -/
def mergeField (new old : Option α) : Option α :=
  match new with
  | some v => some v
  | none => old

/-- The merge loop of `update_patient`: overwrite exactly the keys present in
`patient_update.model_dump(exclude_unset=True)`.  The `id`, `bmi` and
`verdict` keys of the stored record are untouched (the update model has no
such fields). -/
def applyUpdate (r : StoredRecord) (u : Patient_update) : StoredRecord :=
  { r with
    name? := mergeField u.name? r.name?
    city? := mergeField u.city? r.city?
    age? := mergeField u.age? r.age?
    gender? := mergeField u.gender? r.gender?
    height? := mergeField u.height? r.height?
    weight? := mergeField u.weight? r.weight? }

/-- `Patient(id=patient_id, **existing_patient)`.
* If the record carries an `id` key, Python raises
  `TypeError: got multiple values for keyword argument id` at the call, before
  pydantic runs at all.
* Extra keys (`bmi`, `verdict`) are ignored (pydantic default `extra=ignore`;
  they are not declared fields).
* A missing declared field or a violated range constraint raises a pydantic
  `ValidationError`. -/
def buildPatient (pid : String) (r : StoredRecord) : Except ApiError Patient :=
  if r.id?.isSome then
    .error (.typeError "got multiple values for keyword argument id")
  else
    match r.name?, r.city?, r.age?, r.gender?, r.height?, r.weight? with
    | some n, some c, some a, some g, some h, some w =>
      let p : Patient := ⟨pid, n, c, a, g, h, w⟩
      if p.Valid then .ok p else .error (.validationError "validation error for Patient")
    | _, _, _, _, _, _ => .error (.validationError "field required")

/-- `GET /patient/{patient_id}`: return the stored record, 404 if absent. -/
def view_patient (data : Collection) (patient_id : String) : Except ApiError StoredRecord :=
  match lookupId patient_id data with
  | some r => .ok r
  | none => .error (.http 404 "Patient not found")

/-- `POST /create`: 400 if the id exists, otherwise store `model_dump()`
under the new id (a fresh dict key goes to the end of the iteration order)
and answer 201.  Returns the persisted collection and the response. -/
def create_patient (data : Collection) (patient : Patient) :
    Collection × Except ApiError (ℕ × String × String) :=
  if (lookupId patient.id data).isSome then
    (data, .error (.http 400 "Patient with this ID already exists"))
  else
    (data ++ [(patient.id, patient.model_dump)],
     .ok (201, "Patient created successfully", patient.id))

/-- `PUT /edit/{patient_id}`: 404 if absent; otherwise merge the supplied
fields onto the stored record, rebuild a full `Patient` from the merged
record (recomputing `bmi`/`verdict`), and persist its `model_dump()` at the
same key.  On any error nothing is saved. -/
def update_patient (data : Collection) (patient_id : String)
    (patient_update : Patient_update) : Collection × Except ApiError String :=
  match lookupId patient_id data with
  | none => (data, .error (.http 404 "Patient not found"))
  | some existing =>
    let merged := applyUpdate existing patient_update
    match buildPatient patient_id merged with
    | .error e => (data, .error e)
    | .ok p =>
      (data.map fun kv => if kv.1 = patient_id then (patient_id, p.model_dump) else kv,
       .ok "Patient updated successfully")

/-- `del data[patient_id]`: drop the binding of that key, keeping all other
bindings in order (a dict holds at most one binding per key). -/
def deleteId (pid : String) : Collection → Collection
  | [] => []
  | kv :: rest => if kv.1 = pid then deleteId pid rest else kv :: deleteId pid rest

/-- `DELETE /delete/{patient_id}`: 404 if absent, otherwise `del data[patient_id]`
and persist. -/
def delete_patient (data : Collection) (patient_id : String) :
    Collection × Except ApiError (ℕ × String) :=
  if (lookupId patient_id data).isSome then
    (deleteId patient_id data, .ok (200, "Patient deleted successfully"))
  else
    (data, .error (.http 404 "Patient not found"))

/-- Comparison used by the sort: compare records on the value of `key`. -/
def keyLE (key : α → ℚ) (a b : α) : Prop := key a ≤ key b

instance (key : α → ℚ) : DecidableRel (keyLE key) := by
  unfold keyLE; infer_instance

/-- Python `sorted(l, key=key, reverse=desc)`.  `sorted` is a stable
ascending sort, and every stable ascending sort by the same key produces the
same list, so `List.insertionSort` computes it exactly; with `reverse=True`
CPython reverses the list, sorts it ascending, and reverses the result
(hence descending order with ties kept in original order). -/
def pySorted (key : α → ℚ) (desc : Bool) (l : List α) : List α :=
  match desc with
  | true => (List.insertionSort (keyLE key) l.reverse).reverse
  | false => List.insertionSort (keyLE key) l

/-- The sort key `lambda x: x.get(sort_by, 0)` for the three admissible
fields: a record lacking the field counts as `0`. -/
def sortKey (sort_by : String) (r : StoredRecord) : ℚ :=
  if sort_by = "height" then r.height?.getD 0
  else if sort_by = "weight" then r.weight?.getD 0
  else r.bmi?.getD 0

/-- The admissible sort fields, in source order. -/
def valid_fields : List String := ["height", "weight", "bmi"]

/-- `GET /sort`: validate `sort_by` and `order` (each failure is a 400 raised
before the store is read), then return the dict values sorted by the
requested key. -/
def sort_patients (sort_by : String) (ord : String) (data : Collection) :
    Except ApiError (List StoredRecord) :=
  if sort_by ∉ valid_fields then
    .error (.http 400 "Invalid sort field. Must be one of height, weight, bmi")
  else if ord ∉ (["asc", "desc"] : List String) then
    .error (.http 400 "Invalid order. Must be asc or desc")
  else
    .ok (pySorted (sortKey sort_by) (ord == "desc") (data.map Prod.snd))

instance (key : α → ℚ) : IsTotal α (keyLE key) :=
  ⟨fun a b => le_total (key a) (key b)⟩

instance (key : α → ℚ) : IsTrans α (keyLE key) :=
  ⟨fun _ _ _ h₁ h₂ => le_trans h₁ h₂⟩

/-- The elements of `l` whose sort key equals `v`, in order.  Stability of a
sort means this sequence is the same before and after sorting. -/
def filterKey (key : α → ℚ) (v : ℚ) (l : List α) : List α :=
  l.filter fun x => decide (key x = v)

deriving instance DecidableEq for Except

/-- The spec formula for the derived bmi (§3, §8): `round(weight/height², 2)`,
written from the spec text to compare with the implementation. -/
def specBmi (weight height : ℚ) : ℚ := round2 (weight / height ^ 2)

/-- The spec threshold table for the verdict (§3): `<18.5` Underweight;
`[18.5,25)` Normal weight; `[25,30)` Overweight; `≥30` Obese — written from
the spec text to compare with the implementation. -/
def specVerdict (bmi : ℚ) : String :=
  if bmi < 18.5 then "Underweight"
  else if bmi < 25 then "Normal weight"
  else if bmi < 30 then "Overweight"
  else "Obese"

/-- The spec §8 example patient: id P001, height 1.8, weight 72 (the fields
the example omits are filled with arbitrary valid values). -/
def examplePatient : Patient :=
  { id := "P001", name := "Asha", city := "Delhi", age := 30,
    gender := Gender.female, height := 1.8, weight := 72 }

def p002 : Patient :=
  { id := "P002", name := "Ravi", city := "Mumbai", age := 45,
    gender := Gender.male, height := 1.6, weight := 80 }

def p003 : Patient :=
  { id := "P003", name := "Mira", city := "Pune", age := 25,
    gender := Gender.other, height := 1.7, weight := 55 }

def tieP1 : Patient :=
  { id := "T1", name := "Aman", city := "Delhi", age := 30,
    gender := Gender.male, height := 1.5, weight := 60 }

def tieP2 : Patient :=
  { id := "T2", name := "Bela", city := "Delhi", age := 30,
    gender := Gender.female, height := 1.5, weight := 50 }

/-- Two stored records tied on height, in this iteration order. -/
def tieData : Collection := [("T1", tieP1.model_dump), ("T2", tieP2.model_dump)]

/-- Two stored records with distinct heights. -/
def twoHeights : Collection := [("P002", p002.model_dump), ("P003", p003.model_dump)]

/-- A stored record with no `bmi` key (and no `id` key). -/
def noBmiRec : StoredRecord :=
  { id? := none, name? := some "Ghost", city? := some "Pune", age? := some 40,
    gender? := some Gender.other, height? := some 1.75, weight? := some 70,
    bmi? := none, verdict? := none }

/-- A collection mixing a record that lacks `bmi` with a full dump. -/
def mixData : Collection := [("G1", noBmiRec), ("P002", p002.model_dump)]

/-- The update payload `{"age": 150}`: accepted by `Patient_update`
(only `gt=0` there), invalid for the full `Patient` model (`lt=120`). -/
def u150 : Patient_update := { Patient_update.empty with age? := some 150 }

/-- A stored record in the shape of the repository's hand-written
`patients.json`: keyed by id on the outside, no `id` key inside. -/
def legacyRec : StoredRecord :=
  { id? := none, name? := some "Ravi", city? := some "Mumbai", age? := some 45,
    gender? := some Gender.male, height? := some 1.6, weight? := some 80,
    bmi? := some 31.25, verdict? := some "Obese" }


example : ratFloor (7/2) = 3 ∧ ratFloor (-7/2) = -4 ∧ ratFloor 5 = 5 := by
  with_unfolding_all decide

example : roundHalfEven (5/2) = 2 ∧ roundHalfEven (7/2) = 4 ∧ round2 (1/16) = 3/50 := by
  with_unfolding_all decide

set_option maxRecDepth 4000 in
example : round2 (72 / (9/5 : ℚ) ^ 2) = 1111/50 := by with_unfolding_all decide

theorem filterKey_cons (key : α → ℚ) (v : ℚ) (b : α) (t : List α) :
    filterKey key v (b :: t) =
      if key b = v then b :: filterKey key v t else filterKey key v t := by
  simp [filterKey, List.filter_cons]

theorem filterKey_orderedInsert (key : α → ℚ) (v : ℚ) (a : α) :
    ∀ l : List α,
      filterKey key v (List.orderedInsert (keyLE key) a l) =
        if key a = v then a :: filterKey key v l else filterKey key v l
  | [] => by
    simp only [List.orderedInsert, filterKey_cons]
  | b :: t => by
    simp only [List.orderedInsert]
    by_cases hab : keyLE key a b
    · rw [if_pos hab, filterKey_cons, filterKey_cons]
    · rw [if_neg hab, filterKey_cons, filterKey_orderedInsert key v a t, filterKey_cons]
      by_cases ha : key a = v <;> by_cases hb : key b = v
      · exact absurd (show keyLE key a b from le_of_eq (ha.trans hb.symm)) hab
      · simp [ha, hb]
      · simp [ha, hb]
      · simp [ha, hb]

theorem filterKey_insertionSort (key : α → ℚ) (v : ℚ) :
    ∀ l : List α,
      filterKey key v (List.insertionSort (keyLE key) l) = filterKey key v l
  | [] => rfl
  | b :: t => by
    simp only [List.insertionSort]
    rw [filterKey_orderedInsert, filterKey_insertionSort key v t, filterKey_cons]

theorem filterKey_reverse (key : α → ℚ) (v : ℚ) (l : List α) :
    filterKey key v l.reverse = (filterKey key v l).reverse :=
  List.filter_reverse _ _

/-- The sort returns a permutation of its input. -/
theorem pySorted_perm (key : α → ℚ) (desc : Bool) (l : List α) :
    (pySorted key desc l).Perm l := by
  cases desc with
  | false => exact List.perm_insertionSort (keyLE key) l
  | true =>
    exact ((List.reverse_perm _).trans (List.perm_insertionSort _ _)).trans
      (List.reverse_perm l)

/-- Python's sort is stable, in both directions: the subsequence of elements
with any given key value is untouched. -/
theorem pySorted_stable (key : α → ℚ) (desc : Bool) (v : ℚ) (l : List α) :
    filterKey key v (pySorted key desc l) = filterKey key v l := by
  cases desc with
  | false => exact filterKey_insertionSort key v l
  | true =>
    show filterKey key v (List.insertionSort (keyLE key) l.reverse).reverse = _
    rw [filterKey_reverse, filterKey_insertionSort, filterKey_reverse,
      List.reverse_reverse]

/-- Ascending sort output is non-decreasing in the key. -/
theorem pySorted_sorted_asc (key : α → ℚ) (l : List α) :
    (pySorted key false l).Sorted (keyLE key) :=
  List.sorted_insertionSort (keyLE key) l

/-- Descending sort output is non-increasing in the key. -/
theorem pySorted_sorted_desc (key : α → ℚ) (l : List α) :
    (pySorted key true l).Pairwise fun a b => key b ≤ key a := by
  show ((List.insertionSort (keyLE key) l.reverse).reverse).Pairwise _
  rw [List.pairwise_reverse]
  exact List.sorted_insertionSort (keyLE key) l.reverse

/-- Two sorted permutations of each other with pairwise-distinct keys are
equal. -/
theorem eq_of_perm_of_sorted_of_nodupKeys (key : α → ℚ) :
    ∀ {l₁ l₂ : List α}, l₁.Perm l₂ → l₁.Sorted (keyLE key) →
      l₂.Sorted (keyLE key) → (l₁.map key).Nodup → l₁ = l₂ := by
  intro l₁
  induction l₁ with
  | nil =>
    intro l₂ hp _ _ _
    exact (hp.symm.eq_nil).symm
  | cons a t ih =>
    intro l₂ hp hs₁ hs₂ hnd
    cases l₂ with
    | nil => exact absurd hp.eq_nil (by simp)
    | cons b t₂ =>
      have hnd' : key a ∉ t.map key ∧ (t.map key).Nodup :=
        List.nodup_cons.mp (by simpa using hnd)
      have ha₂ : a ∈ b :: t₂ := hp.subset (List.mem_cons_self a t)
      have hb₁ : b ∈ a :: t := hp.symm.subset (List.mem_cons_self b t₂)
      have hab : key a ≤ key b := by
        rcases List.mem_cons.mp hb₁ with h | h
        · rw [h]
        · exact List.rel_of_sorted_cons hs₁ b h
      have hba : key b ≤ key a := by
        rcases List.mem_cons.mp ha₂ with h | h
        · rw [h]
        · exact List.rel_of_sorted_cons hs₂ a h
      have hae : a = b := by
        rcases List.mem_cons.mp hb₁ with h | h
        · exact h.symm
        · exfalso
          have hmem : key b ∈ t.map key := List.mem_map_of_mem key h
          rw [← le_antisymm hab hba] at hmem
          exact hnd'.1 hmem
      subst hae
      rw [ih hp.cons_inv hs₁.of_cons hs₂.of_cons hnd'.2]

/-- With pairwise-distinct key values the descending sort is exactly the
reversal of the ascending one (with ties it is not: both keep ties in
original order). -/
theorem pySorted_desc_eq_reverse_asc (key : α → ℚ) (l : List α)
    (hnd : (l.map key).Nodup) :
    pySorted key true l = (pySorted key false l).reverse := by
  have hperm : (List.insertionSort (keyLE key) l.reverse).Perm
      (List.insertionSort (keyLE key) l) :=
    ((List.perm_insertionSort _ _).trans (List.reverse_perm l)).trans
      (List.perm_insertionSort (keyLE key) l).symm
  have h1 : List.insertionSort (keyLE key) l.reverse =
      List.insertionSort (keyLE key) l := by
    apply eq_of_perm_of_sorted_of_nodupKeys key hperm
      (List.sorted_insertionSort _ _) (List.sorted_insertionSort _ _)
    have hp2 : (List.insertionSort (keyLE key) l.reverse).Perm l :=
      (List.perm_insertionSort _ _).trans (List.reverse_perm l)
    exact ((hp2.map key).nodup_iff).mpr hnd
  show (List.insertionSort (keyLE key) l.reverse).reverse = _
  rw [h1]
  rfl

theorem lookupId_append_not_found (pid : String) (r : StoredRecord) :
    ∀ data : Collection, lookupId pid data = none →
      lookupId pid (data ++ [(pid, r)]) = some r
  | [], _ => by simp [lookupId]
  | kv :: rest, h => by
    simp only [lookupId] at h
    simp only [List.cons_append, lookupId]
    by_cases hk : kv.1 = pid
    · rw [if_pos hk] at h
      exact absurd h (by simp)
    · rw [if_neg hk] at h ⊢
      exact lookupId_append_not_found pid r rest h

theorem lookupId_deleteId_self (pid : String) :
    ∀ data : Collection, lookupId pid (deleteId pid data) = none
  | [] => rfl
  | kv :: rest => by
    simp only [deleteId]
    by_cases hk : kv.1 = pid
    · rw [if_pos hk]
      exact lookupId_deleteId_self pid rest
    · rw [if_neg hk]
      simp only [lookupId, if_neg hk]
      exact lookupId_deleteId_self pid rest

theorem lookupId_deleteId_other (q pid : String) (h : q ≠ pid) :
    ∀ data : Collection, lookupId q (deleteId pid data) = lookupId q data
  | [] => rfl
  | kv :: rest => by
    simp only [deleteId]
    by_cases hk : kv.1 = pid
    · have hkq : ¬kv.1 = q := by rw [hk]; exact fun e => h e.symm
      rw [if_pos hk]
      simp only [lookupId, if_neg hkq]
      exact lookupId_deleteId_other q pid h rest
    · rw [if_neg hk]
      simp only [lookupId]
      by_cases hq : kv.1 = q
      · rw [if_pos hq, if_pos hq]
      · rw [if_neg hq, if_neg hq]
        exact lookupId_deleteId_other q pid h rest

/-- The implementation verdict agrees with the spec threshold table. -/
theorem verdict_eq_table (p : Patient) : p.verdict = specVerdict p.bmi := by
  unfold Patient.verdict specVerdict
  rcases lt_or_le p.bmi (18.5 : ℚ) with h1 | h1
  · rw [if_pos h1, if_pos h1]
  · rw [if_neg (not_lt.mpr h1), if_neg (not_lt.mpr h1)]
    rcases lt_or_le p.bmi (25 : ℚ) with h2 | h2
    · rw [if_pos ⟨h1, h2⟩, if_pos h2]
    · rw [if_neg (fun hc => absurd hc.2 (not_lt.mpr h2)), if_neg (not_lt.mpr h2)]
      rcases lt_or_le p.bmi (30 : ℚ) with h3 | h3
      · rw [if_pos ⟨h2, h3⟩, if_pos h3]
      · rw [if_neg (fun hc => absurd hc.2 (not_lt.mpr h3)), if_neg (not_lt.mpr h3)]

set_option maxRecDepth 10000 in
/-- C2: for every valid Patient the derived bmi equals the spec formula
`round(weight/height², 2)`, and the §8 example patient (height 1.8,
weight 72) has bmi 22.22 and verdict "Normal weight". -/
theorem C2_bmi_formula :
    (∀ p : Patient, p.Valid → p.bmi = specBmi p.weight p.height) ∧
      examplePatient.bmi = 22.22 ∧ examplePatient.verdict = "Normal weight" := by
  refine ⟨fun p _ => rfl, ?_, ?_⟩ <;> with_unfolding_all decide

set_option maxRecDepth 10000 in
theorem C2_bmi_formula_witness :
    examplePatient.Valid ∧
      examplePatient.bmi = specBmi examplePatient.weight examplePatient.height :=
  ⟨by with_unfolding_all decide,
   C2_bmi_formula.1 examplePatient (by with_unfolding_all decide)⟩

/-- C3: for every valid Patient the derived verdict is determined by the
derived bmi through the fixed threshold table of the spec. -/
theorem C3_verdict_table (p : Patient) (_hp : p.Valid) :
    p.verdict = specVerdict p.bmi :=
  verdict_eq_table p

set_option maxRecDepth 10000 in
theorem C3_verdict_table_witness :
    examplePatient.Valid ∧ examplePatient.verdict = specVerdict examplePatient.bmi :=
  ⟨by with_unfolding_all decide,
   C3_verdict_table examplePatient (by with_unfolding_all decide)⟩

set_option maxRecDepth 10000 in
/-- C4: create fails 400 exactly when the id is already bound (store
unchanged), otherwise persists the dump at the end of the mapping and
answers 201 with the id; reading the new id back gives a record whose
derived fields satisfy the spec formulas. -/
theorem C4_create_then_get (data : Collection) (p : Patient) (_hp : p.Valid) :
    ((lookupId p.id data).isSome →
      create_patient data p =
        (data, .error (.http 400 "Patient with this ID already exists"))) ∧
    (lookupId p.id data = none →
      create_patient data p =
        (data ++ [(p.id, p.model_dump)],
         .ok (201, "Patient created successfully", p.id)) ∧
      view_patient (create_patient data p).1 p.id = .ok p.model_dump ∧
      p.model_dump.bmi? = some (specBmi p.weight p.height) ∧
      p.model_dump.verdict? = some (specVerdict p.bmi)) := by
  constructor
  · intro h
    unfold create_patient
    rw [if_pos h]
  · intro h
    have hn : ¬(lookupId p.id data).isSome = true := by rw [h]; simp
    constructor
    · unfold create_patient
      rw [if_neg hn]
    · refine ⟨?_, rfl, ?_⟩
      · unfold create_patient view_patient
        rw [if_neg hn]
        rw [lookupId_append_not_found p.id p.model_dump data h]
      · show some p.verdict = some (specVerdict p.bmi)
        rw [verdict_eq_table]

set_option maxRecDepth 10000 in
theorem C4_create_then_get_witness :
    p002.Valid ∧
    (create_patient [] p002 =
        ([] ++ [(p002.id, p002.model_dump)],
         .ok (201, "Patient created successfully", p002.id)) ∧
      view_patient (create_patient [] p002).1 p002.id = .ok p002.model_dump ∧
      p002.model_dump.bmi? = some (specBmi p002.weight p002.height) ∧
      p002.model_dump.verdict? = some (specVerdict p002.bmi)) :=
  ⟨by with_unfolding_all decide,
   (C4_create_then_get [] p002 (by with_unfolding_all decide)).2 rfl⟩

/-- C9: delete fails 404 when the id is absent (store unchanged); when
present it removes that binding, every other binding still looks up to its
old record, and reading the deleted id back fails 404. -/
theorem C9_delete_then_get (data : Collection) (pid : String)
    (_hnd : (data.map Prod.fst).Nodup) :
    (lookupId pid data = none →
      delete_patient data pid = (data, .error (.http 404 "Patient not found"))) ∧
    ((lookupId pid data).isSome →
      delete_patient data pid =
        (deleteId pid data, .ok (200, "Patient deleted successfully")) ∧
      view_patient (delete_patient data pid).1 pid =
        .error (.http 404 "Patient not found") ∧
      (∀ q, q ≠ pid →
        lookupId q (delete_patient data pid).1 = lookupId q data)) := by
  constructor
  · intro h
    unfold delete_patient
    rw [if_neg (by rw [h]; simp)]
  · intro h
    refine ⟨?_, ?_, ?_⟩
    · unfold delete_patient
      rw [if_pos h]
    · unfold delete_patient view_patient
      rw [if_pos h]
      show (match lookupId pid (deleteId pid data) with
        | some r => Except.ok r
        | none => Except.error (ApiError.http 404 "Patient not found")) = _
      rw [lookupId_deleteId_self pid data]
    · intro q hq
      unfold delete_patient
      rw [if_pos h]
      exact lookupId_deleteId_other q pid hq data

set_option maxRecDepth 10000 in
theorem C9_delete_then_get_witness :
    ([("P002", p002.model_dump), ("P003", p003.model_dump)].map
        (Prod.fst (α := String) (β := StoredRecord))).Nodup ∧
    (lookupId "P003"
        [("P002", p002.model_dump), ("P003", p003.model_dump)]).isSome = true ∧
    (delete_patient [("P002", p002.model_dump), ("P003", p003.model_dump)] "P003" =
        (deleteId "P003" [("P002", p002.model_dump), ("P003", p003.model_dump)],
         .ok (200, "Patient deleted successfully")) ∧
      view_patient
          (delete_patient [("P002", p002.model_dump), ("P003", p003.model_dump)]
            "P003").1 "P003" =
        .error (.http 404 "Patient not found") ∧
      (∀ q, q ≠ "P003" →
        lookupId q
            (delete_patient [("P002", p002.model_dump), ("P003", p003.model_dump)]
              "P003").1 =
          lookupId q [("P002", p002.model_dump), ("P003", p003.model_dump)])) :=
  ⟨by with_unfolding_all decide, by with_unfolding_all decide,
   (C9_delete_then_get [("P002", p002.model_dump), ("P003", p003.model_dump)]
      "P003" (by with_unfolding_all decide)).2 (by with_unfolding_all decide)⟩

set_option maxRecDepth 10000 in
/-- C5 counterexample: with two records tied on the sort field, descending
is not the reversal of ascending — Python keeps ties in original order in
both directions. -/
theorem C5_counterexample :
    sort_patients "height" "desc" tieData ≠
      Except.map List.reverse (sort_patients "height" "asc" tieData) := by
  with_unfolding_all decide

/-- C5 (amended): both sort orders are stable — the subsequence of records
with any given key value is the original iteration-order subsequence — and
descending equals the reversal of ascending exactly when no hypothesis is
needed for ties, i.e. whenever the key values are pairwise distinct. -/
theorem C5_sort_stability_and_reversal (data : Collection) (f : String)
    (hf : f ∈ valid_fields) :
    sort_patients f "asc" data =
      .ok (pySorted (sortKey f) false (data.map Prod.snd)) ∧
    sort_patients f "desc" data =
      .ok (pySorted (sortKey f) true (data.map Prod.snd)) ∧
    (∀ desc : Bool, ∀ v : ℚ,
      filterKey (sortKey f) v (pySorted (sortKey f) desc (data.map Prod.snd)) =
        filterKey (sortKey f) v (data.map Prod.snd)) ∧
    (((data.map Prod.snd).map (sortKey f)).Nodup →
      pySorted (sortKey f) true (data.map Prod.snd) =
        (pySorted (sortKey f) false (data.map Prod.snd)).reverse) := by
  refine ⟨?_, ?_, fun desc v => pySorted_stable _ _ _ _,
    fun h => pySorted_desc_eq_reverse_asc _ _ h⟩
  · unfold sort_patients
    rw [if_neg (not_not_intro hf), if_neg (by decide)]
    rfl
  · unfold sort_patients
    rw [if_neg (not_not_intro hf), if_neg (by decide)]
    rfl

set_option maxRecDepth 10000 in
theorem C5_sort_stability_and_reversal_witness :
    "height" ∈ valid_fields ∧
    pySorted (sortKey "height") true (twoHeights.map Prod.snd) =
      (pySorted (sortKey "height") false (twoHeights.map Prod.snd)).reverse :=
  ⟨by decide,
   (C5_sort_stability_and_reversal twoHeights "height" (by decide)).2.2.2
     (by with_unfolding_all decide)⟩

/-- C6: sorting by bmi descending succeeds on every collection and the
output is non-increasing in the (defaulted) bmi value; an invalid sort
field, or an invalid order, is answered 400 with the same result whatever
the stored collection (the store is not consulted or changed). -/
theorem C6_sort_bmi_desc_and_validation (data : Collection) :
    (∃ out, sort_patients "bmi" "desc" data = .ok out ∧
      out.Pairwise fun a b => b.bmi?.getD 0 ≤ a.bmi?.getD 0) ∧
    (∀ f, f ∉ valid_fields → ∀ o : String, ∀ d : Collection,
      sort_patients f o d =
        .error (.http 400 "Invalid sort field. Must be one of height, weight, bmi")) ∧
    (∀ f o, f ∈ valid_fields → o ∉ (["asc", "desc"] : List String) →
      ∀ d : Collection,
      sort_patients f o d =
        .error (.http 400 "Invalid order. Must be asc or desc")) := by
  refine ⟨⟨pySorted (sortKey "bmi") true (data.map Prod.snd), rfl, ?_⟩, ?_, ?_⟩
  · have h := pySorted_sorted_desc (sortKey "bmi") (data.map Prod.snd)
    exact h.imp fun hab => by simpa [sortKey] using hab
  · intro f hf o d
    unfold sort_patients
    rw [if_pos hf]
  · intro f o hf ho d
    unfold sort_patients
    rw [if_neg (not_not_intro hf), if_pos ho]

theorem C6_sort_bmi_desc_and_validation_witness :
    ("name" ∉ valid_fields) ∧
    sort_patients "name" "asc" tieData =
      .error (.http 400 "Invalid sort field. Must be one of height, weight, bmi") ∧
    ("up" ∉ (["asc", "desc"] : List String)) ∧
    sort_patients "bmi" "up" tieData =
      .error (.http 400 "Invalid order. Must be asc or desc") :=
  ⟨by decide,
   (C6_sort_bmi_desc_and_validation tieData).2.1 "name" (by decide) "asc" tieData,
   by decide,
   (C6_sort_bmi_desc_and_validation tieData).2.2 "bmi" "up" (by decide) (by decide)
     tieData⟩

/-- C10: a valid sort request succeeds on every collection — the output is a
permutation of the stored records ordered by the sort key — and the sort key
of a record lacking the requested field is 0 (the `.get(sort_by, 0)`
default), rather than an error. -/
theorem C10_missing_field_defaults (data : Collection) (f o : String)
    (hf : f ∈ valid_fields) (ho : o ∈ (["asc", "desc"] : List String)) :
    (∃ out, sort_patients f o data = .ok out ∧
      out.Perm (data.map Prod.snd) ∧
      (o = "asc" → out.Sorted (keyLE (sortKey f))) ∧
      (o = "desc" → out.Pairwise fun a b => sortKey f b ≤ sortKey f a)) ∧
    (∀ r : StoredRecord, r.height? = none → sortKey "height" r = 0) ∧
    (∀ r : StoredRecord, r.weight? = none → sortKey "weight" r = 0) ∧
    (∀ r : StoredRecord, r.bmi? = none → sortKey "bmi" r = 0) := by
  refine ⟨⟨pySorted (sortKey f) (o == "desc") (data.map Prod.snd),
    ?_, pySorted_perm _ _ _, ?_, ?_⟩, ?_, ?_, ?_⟩
  · unfold sort_patients
    rw [if_neg (not_not_intro hf), if_neg (not_not_intro ho)]
  · intro hoa
    subst hoa
    exact pySorted_sorted_asc _ _
  · intro hod
    subst hod
    exact pySorted_sorted_desc _ _
  · intro r h
    simp [sortKey, h]
  · intro r h
    simp [sortKey, h]
  · intro r h
    simp [sortKey, h]

set_option maxRecDepth 10000 in
theorem C10_missing_field_defaults_witness :
    ("bmi" ∈ valid_fields) ∧ ("asc" ∈ (["asc", "desc"] : List String)) ∧
    noBmiRec.bmi? = none ∧ sortKey "bmi" noBmiRec = 0 ∧
    (∃ out, sort_patients "bmi" "asc" mixData = .ok out ∧
      out.Perm (mixData.map Prod.snd) ∧
      ("asc" = "asc" → out.Sorted (keyLE (sortKey "bmi"))) ∧
      ("asc" = "desc" → out.Pairwise fun a b => sortKey "bmi" b ≤ sortKey "bmi" a)) :=
  ⟨by decide, by decide, rfl,
   (C10_missing_field_defaults mixData "bmi" "asc" (by decide) (by decide)).2.2.2
     noBmiRec rfl,
   (C10_missing_field_defaults mixData "bmi" "asc" (by decide) (by decide)).1⟩

set_option maxRecDepth 10000 in
/-- C1 (code bug): `create` persists `model_dump()`, which contains the `id`
key, so the very next `update` on that record raises
`TypeError: got multiple values for keyword argument id` at
`Patient(id=patient_id, **existing_patient)` — an uncaught 500 — instead of
merging the payload, recomputing the derived fields, persisting and
returning the success message. -/
theorem C1_update_after_create_crashes :
    (create_patient [] examplePatient).1 = [("P001", examplePatient.model_dump)] ∧
    (examplePatient.model_dump.id?).isSome = true ∧
    update_patient (create_patient [] examplePatient).1 "P001"
        { Patient_update.empty with weight? := some 80 } =
      ((create_patient [] examplePatient).1,
       .error (.typeError "got multiple values for keyword argument id")) := by
  refine ⟨?_, ?_, ?_⟩ <;> with_unfolding_all decide

set_option maxRecDepth 10000 in
/-- C7 (code bug): the payload `{"age": 150}` is a valid partial payload
whose merged record violates the full constraint `age < 120`, but on a
record stored by `create` (which carries the `id` key) the handler raises
`TypeError` at the `Patient(...)` call, before the promised post-merge
validation can run; the store is left unchanged, yet not by a validation
failure. -/
theorem C7_post_merge_validation_unreachable :
    u150.Valid ∧
    (applyUpdate p002.model_dump u150).age? = some 150 ∧
    ¬ (Patient.mk "P002" "Ravi" "Mumbai" 150 Gender.male 1.6 80).Valid ∧
    update_patient [("P002", p002.model_dump)] "P002" u150 =
      ([("P002", p002.model_dump)],
       .error (.typeError "got multiple values for keyword argument id")) := by
  refine ⟨?_, ?_, ?_, ?_⟩ <;> with_unfolding_all decide

set_option maxRecDepth 10000 in
/-- C8 (code bug): even the empty partial payload `{}` cannot be applied to
a record stored by `create`: the handler raises `TypeError` (uncaught 500)
instead of succeeding with recomputed derived fields. -/
theorem C8_empty_update_crashes :
    update_patient [("P003", p003.model_dump)] "P003" Patient_update.empty =
      ([("P003", p003.model_dump)],
       .error (.typeError "got multiple values for keyword argument id")) := by
  with_unfolding_all decide

set_option maxRecDepth 10000 in
/-- On a record without an `id` key the behaviour the spec promises for
update is reachable: the empty payload succeeds, persisting the rebuilt
dump with recomputed derived fields, and the payload `{"age": 150}` is
rejected by the post-merge validation with the store unchanged.  This
locates the C1/C7/C8 divergence entirely in the `id` key that `create`
stores. -/
theorem update_patient_spec_behaviour_on_legacy_record :
    update_patient [("P002", legacyRec)] "P002" Patient_update.empty =
      ([("P002",
         (Patient.mk "P002" "Ravi" "Mumbai" 45 Gender.male 1.6 80).model_dump)],
       .ok "Patient updated successfully") ∧
    update_patient [("P002", legacyRec)] "P002" u150 =
      ([("P002", legacyRec)],
       .error (.validationError "validation error for Patient")) := by
  refine ⟨?_, ?_⟩ <;> with_unfolding_all decide
